import Mathlib

/-!
Shallow embedding of the accessibility-audit server (`server.js`):
rule taxonomy, translation resolution, issue normalizer, scorer,
summarizer, and the audit-endpoint validation step, together with
theorems settling the specification claims about them.
-/

namespace A11y

/-- A raw issue as produced by the external testing engine
(`{ code, type, message, selector }`); missing string fields are
modelled as the empty string (JavaScript falsy). -/
structure RawIssue where
  code : String
  type : String
  message : String
  selector : String
deriving Repr, DecidableEq

/-- A curated translation-table entry (`{ title, description, fix }`). -/
structure CuratedEntry where
  title : String
  description : String
  fix : String
deriving Repr, DecidableEq

/-- The resolved translation attached to a normalized issue. -/
structure Translation where
  title : String
  description : String
  fix : String
deriving Repr, DecidableEq

/-- `criticalPatterns` from `processAndCleanIssues` (server.js lines 48-57). -/
def criticalPatterns : List String :=
  ["H25.2", "G18.Fail", "F77", "H32.2", "2_4_4.H77", "3_3_1", "3_3_2", "4_1_1"]

/-- `warningPatterns` from `processAndCleanIssues` (server.js lines 58-60). -/
def warningPatterns : List String :=
  ["H67.1", "G149", "G141", "1_4_4", "2_4_1", "2_4_7"]

/-- Does the character list `pat` occur at the front of the second list?
Backs the substring test used by `String.prototype.includes`. -/
def frontMatches : List Char → List Char → Bool
  | [], _ => true
  | _ :: _, [] => false
  | a :: as, b :: bs => a == b && frontMatches as bs

/-- Does `pat` occur as a contiguous sublist of the character list?
Model of JavaScript substring containment. -/
def containsSub (pat : List Char) : List Char → Bool
  | [] => frontMatches pat []
  | c :: t => frontMatches pat (c :: t) || containsSub pat t

/-- `key.includes(p)` on strings. -/
def strIncludes (key pat : String) : Bool :=
  containsSub pat.data key.data

/-- The curated translation table from `processAndCleanIssues`
(server.js lines 62-193), as an association list in source order. -/
def translationsTable : List (String × CuratedEntry) :=
  [ ("WCAG2AA.Principle2.Guideline2_4.2_4_2.H25.2",
     { title := "Seitentitel fehlt oder unbrauchbar",
       description := "Der Seitentitel ist leer, zu allgemein oder nicht aussagekräftig.",
       fix := "Eindeutige, beschreibende Titel für alle Seiten hinzufügen" }),
    ("WCAG2AA.Principle2.Guideline2_4.2_4_4.H77",
     { title := "Linktexte sind nicht aussagekräftig",
       description := "Links mit Texten wie \"Hier klicken\", \"Mehr\" oder \"Link\" sind nicht aussagekräftig.",
       fix := "\"Hier klicken\" durch beschreibende Texte ersetzen: \"Zur Produktseite\", \"Kontakt aufnehmen\"" }),
    ("WCAG2AA.Principle1.Guideline1_4.1_4_3.G18.Fail",
     { title := "Kontrast zu niedrig",
       description := "Text- und Hintergrundfarben haben weniger als 4,5:1 Kontrast.",
       fix := "Farben anpassen: Dunkler Text auf hellem Hintergrund oder umgekehrt" }),
    ("WCAG2AA.Principle4.Guideline4_1.4_1_1.F77",
     { title := "Doppelte IDs gefunden",
       description := "Mehrere HTML-Elemente haben die gleiche ID.",
       fix := "Jede ID nur einmal pro Seite verwenden – IDs müssen eindeutig sein" }),
    ("WCAG2AA.Principle3.Guideline3_2.3_2_2.H32.2",
     { title := "Formulare ohne Submit-Button",
       description := "Formulare haben keinen Absende-Button.",
       fix := "<button type=\"submit\">Absenden</button> zu allen Formularen hinzufügen" }),
    ("WCAG2AA.Principle3.Guideline3_3.3_3_1.G83",
     { title := "Fehlermeldungen fehlen",
       description := "Formulare zeigen keine klaren Fehlermeldungen.",
       fix := "Verständliche Fehlermeldungen hinzufügen: \"Bitte E-Mail-Adresse eingeben\"" }),
    ("WCAG2AA.Principle3.Guideline3_3.3_3_2.G131",
     { title := "Pflichtfelder nicht gekennzeichnet",
       description := "Erforderliche Formularfelder sind nicht erkennbar.",
       fix := "Pflichtfelder mit * markieren und \"Pflichtfeld\" Label hinzufügen" }),
    ("WCAG2AA.Principle1.Guideline1_1.1_1_1.H67.1",
     { title := "Problematische Bild-Attribute",
       description := "Bilder mit leerem alt-Text haben trotzdem einen title.",
       fix := "Entweder title-Attribut entfernen oder sinnvollen alt-Text hinzufügen" }),
    ("WCAG2AA.Principle1.Guideline1_1.1_1_1.G94.Image",
     { title := "Bilder ohne Alt-Text",
       description := "Informative Bilder haben keinen Alternativtext.",
       fix := "Alt-Text hinzufügen: <img src=\"logo.jpg\" alt=\"Firmenlogo ReguKit\">" }),
    ("WCAG2AA.Principle2.Guideline2_4.2_4_7.G149",
     { title := "Fokus nicht sichtbar",
       description := "Keyboard-Navigation zeigt nicht welches Element aktiv ist.",
       fix := "CSS hinzufügen: :focus \x7b outline: 2px solid #0066cc; border-radius: 2px; \x7d" }),
    ("WCAG2AA.Principle1.Guideline1_3.1_3_1_A.G141",
     { title := "Falsche Überschriften-Struktur",
       description := "Überschriften-Hierarchie ist unlogisch.",
       fix := "Überschriften korrekt verschachteln: H1 → H2 → H3 (nicht H1 → H3)" }),
    ("WCAG2AA.Principle1.Guideline1_4.1_4_4.G142",
     { title := "Text nicht skalierbar",
       description := "Text kann nicht auf 200% vergrößert werden.",
       fix := "Relative Einheiten verwenden (em, rem) statt fester Pixel" }),
    ("WCAG2AA.Principle1.Guideline1_3.1_3_1.H42",
     { title := "Falsche Überschriften-Tags",
       description := "Text sieht aus wie Überschrift, verwendet aber falsche HTML-Tags.",
       fix := "Richtige Überschriften-Tags verwenden: <h2>…</h2> statt <p><strong>…</strong></p>" }),
    ("WCAG2AA.Principle2.Guideline2_4.2_4_1.G1",
     { title := "Keine Skip-Links",
       description := "Navigation kann nicht übersprungen werden.",
       fix := "Skip-Link hinzufügen: <a href=\"#main\">Zum Hauptinhalt springen</a>" }),
    ("WCAG2AA.Principle4.Guideline4_1.4_1_2.H91.A.Placeholder",
     { title := "Links ohne Text",
       description := "Links haben keinen erkennbaren Text oder Beschreibung.",
       fix := "Linktext hinzufügen oder aria-label verwenden" }),
    ("WCAG2AA.Principle1.Guideline1_1.1_1_1.H67.2",
     { title := "Dekorative Bilder falsch markiert",
       description := "Schmuckbilder haben unnötigen title-Text.",
       fix := "Nur alt=\"\" für Schmuckbilder, kein title-Attribut" }),
    ("WCAG2AA.Principle1.Guideline1_4.1_4_2.F23",
     { title := "Horizontales Scrollen bei Zoom",
       description := "Bei 200% Zoom muss horizontal gescrollt werden.",
       fix := "Responsive Design verwenden (flexible Layouts, max-width:100%)" }),
    ("WCAG2AA.Principle1.Guideline1_3.1_3_1.H48",
     { title := "Listen falsch strukturiert",
       description := "Aufzählungen verwenden keine korrekten Listen-Tags.",
       fix := "Richtige Listen verwenden: <ul><li>…</li></ul>" }),
    ("WCAG2AA.Principle2.Guideline2_4.2_4_6.G130",
     { title := "Aktuelle Position nicht hervorgehoben",
       description := "Nutzer wissen nicht, wo sie sich befinden.",
       fix := "Breadcrumbs oder aktive Navigation markieren" }),
    ("WCAG2AA.Principle3.Guideline3_1.3_1_2.H58",
     { title := "Sprachangaben fehlen",
       description := "Fremdsprachige Texte sind nicht markiert.",
       fix := "Lang-Attribut hinzufügen: <span lang=\"en\">Hello World</span>" }),
    ("WCAG2AA.Principle2.Guideline2_4.2_4_1.G1,G123,G124.NoSuchID",
     { title := "Link verweist auf nicht existierende Anker-ID",
       description := "Links zeigen auf Ziele, die nicht vorhanden sind.",
       fix := "Anker-Links (#section1) reparieren oder entfernen" }),
    ("WCAG2AA.Principle2.Guideline2_4.2_4_6.G130,G131",
     { title := "Keine Orientierungshilfe",
       description := "Nutzer wissen nicht, wo sie sich befinden.",
       fix := "Breadcrumb-Navigation hinzufügen: Home > Kategorie > Seite" }),
    ("WCAG2AA.Principle3.Guideline3_3.3_3_4.G98,G99,G155,G164,G168.LegalForms",
     { title := "Bestätigungsschritte fehlen (rechtlich verbindlich)",
       description := "Wichtige Formulare haben keine Bestätigung.",
       fix := "Bestätigungsseite hinzufügen: \"Sind Sie sicher? [Ja] [Nein]\"" }),
    ("WCAG2AA.Principle1.Guideline1_4.1_4_10.C32,C31,C33,C38,SCR34,G206",
     { title := "Zoom wird behindert",
       description := "Website kann nicht richtig gezoomt werden.",
       fix := "Viewport korrekt setzen: <meta name=\"viewport\" content=\"width=device-width, initial-scale=1\">" }),
    ("WCAG2AA.Principle1.Guideline1_1.1_1_1.G73,G74",
     { title := "Komplexe Bilder ohne ausführliche Beschreibung",
       description := "Diagramme/Charts haben nur kurzen alt-Text.",
       fix := "Ausführliche Beschreibung daneben oder via aria-describedby" }),
    ("WCAG2AA.Principle1.Guideline1_4.1_4_3.G145.Fail",
     { title := "Kontrast zu niedrig (große Schrift)",
       description := "Große Schrift hat weniger als 3:1 Kontrast.",
       fix := "Kontrast für große Texte (18pt+) auf mind. 3:1 erhöhen" }) ]

/-- First-match association-list lookup, the model of a JavaScript
object keyed by rule code. -/
def tableLookup (tbl : List (String × CuratedEntry)) (key : String) : Option CuratedEntry :=
  match tbl with
  | [] => none
  | (k, v) :: rest => if k = key then some v else tableLookup rest key

/-- `translations[key]` (exact-match lookup in the curated table). -/
def translations (key : String) : Option CuratedEntry :=
  tableLookup translationsTable key

/-- Rule classification: `critical` if any critical pattern is a
substring of the code, else `warning` if any warning pattern is, else
`low` (server.js lines 205-208). -/
def classify (key : String) : String :=
  if criticalPatterns.any (fun p => strIncludes key p) then "critical"
  else if warningPatterns.any (fun p => strIncludes key p) then "warning"
  else "low"

/-- Is `c` an ASCII digit, JavaScript regex `\d`. -/
def isDigitCh (c : Char) : Bool :=
  48 ≤ c.toNat && c.toNat ≤ 57

/-- Does the regex `Principle\d\.Guideline\d_\d\.\d_\d_\d\.` match at the
front of the character list (a fixed 30-character shape)? -/
def matchGuide : List Char → Bool
  | 'P' :: 'r' :: 'i' :: 'n' :: 'c' :: 'i' :: 'p' :: 'l' :: 'e' :: d1 :: '.' ::
    'G' :: 'u' :: 'i' :: 'd' :: 'e' :: 'l' :: 'i' :: 'n' :: 'e' :: d2 :: '_' :: d3 :: '.' ::
    d4 :: '_' :: d5 :: '_' :: d6 :: '.' :: _ =>
      isDigitCh d1 && isDigitCh d2 && isDigitCh d3 &&
      isDigitCh d4 && isDigitCh d5 && isDigitCh d6
  | _ => false

/-- Remove the first occurrence of the guideline-number pattern, the
model of `.replace(/Principle\d\.Guideline\d_\d\.\d_\d_\d\./, '')`. -/
def removeGuidePat : List Char → List Char
  | [] => []
  | c :: cs => if matchGuide (c :: cs) then List.drop 29 cs else c :: removeGuidePat cs

/-- `key.replace(/^WCAG2AA\./, '')`: strip the leading standard name
(`WCAG2AA.` is 8 characters). -/
def stripWCAG (s : String) : String :=
  if frontMatches "WCAG2AA.".data s.data then String.mk (s.data.drop 8) else s

/-- The code with the standard name and the guideline-number pattern
stripped, the third title fallback (server.js line 216). -/
def strippedCode (key : String) : String :=
  String.mk (removeGuidePat (stripWCAG key).data)

/-- The whitespace class of `String.prototype.trim` (space, tab, line
feed, carriage return, vertical tab, form feed, no-break space). -/
def jsWhitespace (c : Char) : Bool :=
  c == ' ' || c == '\t' || c == '\n' || c == '\r' || c == '\x0b' || c == '\x0c' || c == '\u00A0'

/-- `String.prototype.trim`: remove whitespace from both ends. -/
def jsTrim (s : String) : String :=
  String.mk (((s.data.dropWhile jsWhitespace).reverse.dropWhile jsWhitespace).reverse)

/-- `germanText.split('.')[0]`: the characters before the first dot
(the whole string when there is none). -/
def firstDotSegment (s : String) : String :=
  String.mk (s.data.takeWhile (fun c => c != '.'))

/-- JavaScript truthiness of an optional string: present and non-empty. -/
def truthy : Option String → Bool
  | some s => s ≠ ""
  | none => false

/-- `germanText = wcagDe[key] || translations[key]?.description ||
'Unbekanntes Problem'` (server.js line 210); the external dictionary is
consulted first. -/
def germanTextOf (wcagDe : String → Option String) (key : String) : String :=
  match wcagDe key with
  | some s =>
    if s = "" then
      match translations key with
      | some t => if t.description = "" then "Unbekanntes Problem" else t.description
      | none => "Unbekanntes Problem"
    else s
  | none =>
    match translations key with
    | some t => if t.description = "" then "Unbekanntes Problem" else t.description
    | none => "Unbekanntes Problem"

/-- The title resolution of server.js lines 212-216: curated title,
else first sentence of `germanText` when it is longer than 10
characters, else the stripped code. -/
def titleOf (wcagDe : String → Option String) (key : String) : String :=
  let germanText := germanTextOf wcagDe key
  let fallback :=
    if germanText ≠ "" ∧ 10 < germanText.length then firstDotSegment germanText
    else strippedCode key
  match translations key with
  | some t => if t.title = "" then fallback else t.title
  | none => fallback

/-- The full translation record attached to a group
(server.js lines 210-219). -/
def translationFor (wcagDe : String → Option String) (key : String) : Translation :=
  { title := titleOf wcagDe key,
    description := germanTextOf wcagDe key,
    fix :=
      match translations key with
      | some t => if t.fix = "" then "Siehe WCAG-Richtlinien" else t.fix
      | none => "Siehe WCAG-Richtlinien" }

/-- Raw counts per severity, the scorer input. -/
structure Counts where
  errors : Nat
  warnings : Nat
  notices : Nat
deriving Repr, DecidableEq

/-- The penalty breakdown of the score result. -/
structure ScoreBreakdown where
  errorPenalty : Nat
  warningPenalty : Nat
  noticePenalty : Nat
  totalPenalty : Nat
deriving Repr, DecidableEq

/-- The full score result (`calculateDetailedScore` return value). -/
structure ScoreResult where
  score : Nat
  grade : String
  gradeColor : String
  breakdown : ScoreBreakdown
  assessment : String
deriving Repr, DecidableEq

/-- `getScoreAssessment` (server.js lines 261-268). -/
def getScoreAssessment (score : Nat) : String :=
  if 90 ≤ score then "Hervorragend - Kleine Optimierungen möglich"
  else if 80 ≤ score then "Gut - Wenige Verbesserungen nötig"
  else if 70 ≤ score then "Befriedigend - Mehrere Probleme beheben"
  else if 60 ≤ score then "Ausreichend - Wichtige Mängel vorhanden"
  else if 40 ≤ score then "Mangelhaft - Viele kritische Probleme"
  else "Kritisch - Sofortiger Handlungsbedarf!"

/-- `calculateDetailedScore` (server.js lines 240-260).  Penalties are
capped minima; the total never exceeds 100, so the `max 0` on natural
numbers agrees with `Math.max(0, 100 - totalPenalty)` on JS numbers. -/
def calculateDetailedScore (c : Counts) : ScoreResult :=
  let errorPenalty := min 60 (c.errors * 10)
  let warningPenalty := min 25 (c.warnings * 3)
  let noticePenalty := min 15 (c.notices * 1)
  let totalPenalty := errorPenalty + warningPenalty + noticePenalty
  let score := max 0 (100 - totalPenalty)
  let grade :=
    if 95 ≤ score then "A+"
    else if 90 ≤ score then "A"
    else if 80 ≤ score then "B"
    else if 70 ≤ score then "C"
    else if 60 ≤ score then "D"
    else "F"
  let gradeColor :=
    if 95 ≤ score then "#059669"
    else if 90 ≤ score then "#10b981"
    else if 80 ≤ score then "#84cc16"
    else if 70 ≤ score then "#eab308"
    else if 60 ≤ score then "#f59e0b"
    else "#dc2626"
  { score := score, grade := grade, gradeColor := gradeColor,
    breakdown :=
      { errorPenalty := errorPenalty, warningPenalty := warningPenalty,
        noticePenalty := noticePenalty, totalPenalty := totalPenalty },
    assessment := getScoreAssessment score }

/-- A group under construction in the `grouped` object of
`processAndCleanIssues`; `messages` and `selectors` model JavaScript
`Set`s in insertion order. -/
structure Group where
  code : String
  type : String
  count : Nat
  messages : List String
  selectors : List String
  isPriority : String
  translation : Translation
deriving Repr, DecidableEq

/-- Insertion-ordered set add, the model of `Set.prototype.add`. -/
def setAdd (l : List String) (x : String) : List String :=
  if x ∈ l then l else l ++ [x]

/-- `issue.code || 'unknown'`: an empty (falsy) code is grouped under
the literal key `unknown`. -/
def jsKey (code : String) : String :=
  if code = "" then "unknown" else code

/-- The per-issue mutation of a group (server.js lines 221-223):
increment `count`; add the trimmed message and the selector to their
sets when non-empty. -/
def updateGroup (g : Group) (issue : RawIssue) : Group :=
  { g with
    count := g.count + 1,
    messages := if issue.message ≠ "" then setAdd g.messages (jsTrim issue.message) else g.messages,
    selectors := if issue.selector ≠ "" then setAdd g.selectors issue.selector else g.selectors }

/-- A freshly created group (server.js lines 198-219): zero count,
empty sets, priority from the taxonomy, translation resolved once. -/
def freshGroup (wcagDe : String → Option String) (key : String) (issue : RawIssue) : Group :=
  { code := key, type := issue.type, count := 0, messages := [], selectors := [],
    isPriority := classify key, translation := translationFor wcagDe key }

/-- One step of the grouping loop: update the existing group for the
issue's key, or append a fresh group at the end (JavaScript object
string keys enumerate in insertion order). -/
def insertIssue (wcagDe : String → Option String) (issue : RawIssue) :
    List Group → List Group
  | [] => [updateGroup (freshGroup wcagDe (jsKey issue.code) issue) issue]
  | g :: gs =>
    if g.code = jsKey issue.code then updateGroup g issue :: gs
    else g :: insertIssue wcagDe issue gs

/-- The whole grouping loop of `processAndCleanIssues`
(server.js lines 195-224). -/
def groupIssues (wcagDe : String → Option String) (issues : List RawIssue) : List Group :=
  issues.foldl (fun gs i => insertIssue wcagDe i gs) []

/-- The normalized issue emitted for each group (server.js lines
226-231): the spread keeps all group fields, `messages` becomes an
array and `samples` takes the first three selectors. -/
structure NormalizedIssue where
  code : String
  type : String
  count : Nat
  messages : List String
  selectors : List String
  samples : List String
  isPriority : String
  translation : Translation
deriving Repr, DecidableEq

/-- `{...g, messages: Array.from(g.messages), samples:
Array.from(g.selectors).slice(0, 3)}`. -/
def finalizeGroup (g : Group) : NormalizedIssue :=
  { code := g.code, type := g.type, count := g.count, messages := g.messages,
    selectors := g.selectors, samples := g.selectors.take 3,
    isPriority := g.isPriority, translation := g.translation }

/-- `order[p]` for the sort comparator: critical 0, warning 1, low 2. -/
def priorityRank (p : String) : Nat :=
  if p = "critical" then 0 else if p = "warning" then 1 else 2

/-- The total preorder decided by the sort comparator of server.js
lines 232-236: `a` precedes `b` when its priority rank is smaller, or
ranks tie and its count is at least as large. -/
def issueRel (a b : NormalizedIssue) : Prop :=
  priorityRank a.isPriority < priorityRank b.isPriority ∨
    (priorityRank a.isPriority = priorityRank b.isPriority ∧ b.count ≤ a.count)

instance : DecidableRel issueRel := fun a b => by
  unfold issueRel; infer_instance

instance : IsTotal NormalizedIssue issueRel where
  total a b := by
    unfold issueRel
    rcases Nat.lt_trichotomy (priorityRank a.isPriority) (priorityRank b.isPriority) with h | h | h
    · exact Or.inl (Or.inl h)
    · rcases Nat.le_total b.count a.count with hc | hc
      · exact Or.inl (Or.inr ⟨h, hc⟩)
      · exact Or.inr (Or.inr ⟨h.symm, hc⟩)
    · exact Or.inr (Or.inl h)

instance : IsTrans NormalizedIssue issueRel where
  trans a b c hab hbc := by
    unfold issueRel at *
    rcases hab with h1 | ⟨h1, h1c⟩ <;> rcases hbc with h2 | ⟨h2, h2c⟩
    · exact Or.inl (h1.trans h2)
    · exact Or.inl (h2 ▸ h1)
    · exact Or.inl (h1 ▸ h2)
    · exact Or.inr ⟨h1.trans h2, h2c.trans h1c⟩

/-- `processAndCleanIssues` (server.js lines 47-237): group, finalize,
then sort with the priority/count comparator (a stable sort, as
required of `Array.prototype.sort`). -/
def processAndCleanIssues (wcagDe : String → Option String)
    (issues : List RawIssue) : List NormalizedIssue :=
  List.insertionSort issueRel ((groupIssues wcagDe issues).map finalizeGroup)

/-- An entry of `summary.topCritical`. -/
structure TopCriticalEntry where
  title : String
  count : Nat
  fix : String
deriving Repr, DecidableEq

/-- The summary object (server.js lines 271-285). -/
structure Summary where
  total : Nat
  criticalCount : Nat
  warningCount : Nat
  topCritical : List TopCriticalEntry
  quickWins : List String
deriving Repr, DecidableEq

/-- `issue.translation?.title || issue.code` (quick-win projection,
server.js line 290). -/
def titleOrCode (i : NormalizedIssue) : String :=
  if i.translation.title = "" then i.code else i.translation.title

/-- The quick-win code fragments (server.js line 287). -/
def quickWinCodes : List String := ["H25.2", "F77", "H32.2"]

/-- `getQuickWins` (server.js lines 286-292): filter the critical
issues by the quick-win fragments, project to title-or-code, take 3. -/
def getQuickWins (criticalIssues : List NormalizedIssue) : List String :=
  (((criticalIssues.filter
      (fun issue => quickWinCodes.any (fun code => strIncludes issue.code code))).map
    titleOrCode).take 3)

/-- `generateSummary` (server.js lines 271-285). -/
def generateSummary (processedIssues : List NormalizedIssue) : Summary :=
  let criticalIssues := processedIssues.filter (fun i => i.isPriority = "critical")
  let warningIssues := processedIssues.filter (fun i => i.isPriority = "warning")
  { total := processedIssues.length,
    criticalCount := criticalIssues.length,
    warningCount := warningIssues.length,
    topCritical := (criticalIssues.take 3).map
      (fun i =>
        { title := if i.translation.title = "" then stripWCAG i.code else i.translation.title,
          count := i.count,
          fix := if i.translation.fix = "" then "Siehe WCAG-Richtlinien" else i.translation.fix }),
    quickWins := getQuickWins criticalIssues }

/-- The parsed-URL view the runtime's `new URL` yields; only the
protocol matters to validation, `rest` stands for the remainder of the
serialization. -/
structure URLParts where
  protocol : String
  rest : String
deriving Repr, DecidableEq

/-- `isValidUrl` (server.js lines 27-34), parameterized by the
runtime's URL parser: parse, then require an http or https protocol. -/
def isValidUrl (parseURL : String → Option URLParts) (s : String) : Bool :=
  match parseURL s with
  | some u => u.protocol == "http:" || u.protocol == "https:"
  | none => false

/-- `enforceHttps` (server.js lines 36-44): upgrade an http protocol
to https and reserialize; an unparseable URL passes through. -/
def enforceHttps (parseURL : String → Option URLParts) (url : String) : String :=
  match parseURL url with
  | some u => (if u.protocol = "http:" then "https:" else u.protocol) ++ u.rest
  | none => url

/-- What the `/api/a11y-check` handler does before any engine work:
either an early rejection or an invocation of the external engine. -/
inductive HandlerStep where
  | reject (status : Nat) (error : String)
  | engineCall (url : String)
deriving Repr, DecidableEq

/-- How many external-engine calls a handler step performs. -/
def engineCalls : HandlerStep → Nat
  | .reject _ _ => 0
  | .engineCall _ => 1

/-- The validation head of the `/api/a11y-check` handler (server.js
lines 295-305): a missing or falsy or invalid `url` is rejected with
status 400 before the engine is touched; otherwise the https-enforced
URL is handed to the engine. -/
def a11yCheckStep (parseURL : String → Option URLParts) (url : Option String) : HandlerStep :=
  match url with
  | none => .reject 400 "Bitte eine gültige URL mit http(s) angeben."
  | some u =>
    if u = "" ∨ ¬ isValidUrl parseURL u then
      .reject 400 "Bitte eine gültige URL mit http(s) angeben."
    else
      .engineCall (enforceHttps parseURL u)

/-- Modelled from the spec: the description-resolution order claimed
by the spec (claim C1) — curated description first, then the external
dictionary entry, then the placeholder. -/
def claimedDescription (wcagDe : String → Option String) (key : String) : String :=
  match translations key with
  | some t => t.description
  | none =>
    match wcagDe key with
    | some s => s
    | none => "Unbekanntes Problem"

/-- The resolution order the code actually implements: the external
dictionary entry first when present and non-empty, then the curated
description when present and non-empty, then the placeholder. -/
def amendedDescription (wcagDe : String → Option String) (key : String) : String :=
  if truthy (wcagDe key) then (wcagDe key).getD ""
  else if truthy ((translations key).map CuratedEntry.description) then
    ((translations key).map CuratedEntry.description).getD ""
  else "Unbekanntes Problem"

/-- A concrete external dictionary that overrides a curated code. -/
def dictC1 : String → Option String :=
  fun k =>
    if k = "WCAG2AA.Principle2.Guideline2_4.2_4_2.H25.2" then
      some "Externe Beschreibung aus dem Wörterbuch"
    else none

/-- The count recorded for `key` in a group list (0 when absent);
proof-side view of the `grouped` object. -/
def countIn : List Group → String → Nat
  | [], _ => 0
  | g :: gs, key => if g.code = key then g.count else countIn gs key

/-- An empty external dictionary, for concrete evaluations. -/
def emptyDict : String → Option String := fun _ => none

/-- Concrete raw issues realizing priorities low(5), critical(1),
warning(10) in input order, for the sort-order example. -/
def exampleIssuesC3 : List RawIssue :=
  (List.replicate 5 ⟨"X.LOW", "notice", "m", "s"⟩) ++
  [⟨"A.F77", "error", "m", "s"⟩] ++
  (List.replicate 10 ⟨"B.G149", "warning", "m", "s"⟩)

/-- The two-issue duplicate-code input of the count example. -/
def exampleIssuesC4 : List RawIssue :=
  [⟨"X", "error", "m1", "s1"⟩, ⟨"X", "error", "m1", "s2"⟩]

/-- The normalized record the count example produces. -/
def normXIssue : NormalizedIssue :=
  { code := "X", type := "error", count := 2, messages := ["m1"],
    selectors := ["s1", "s2"], samples := ["s1", "s2"], isPriority := "low",
    translation := { title := "Unbekanntes Problem", description := "Unbekanntes Problem",
                     fix := "Siehe WCAG-Richtlinien" } }

/-- A concrete critical quick-win issue, for the summary witness. -/
def qwIssue : NormalizedIssue :=
  { code := "A.F77", type := "error", count := 1, messages := [], selectors := [],
    samples := [], isPriority := "critical",
    translation := { title := "Doppelte IDs", description := "d", fix := "f" } }

/-- C2: the scorer computes `errorPenalty = min(60, errors*10)`,
`warningPenalty = min(25, warnings*3)`, `noticePenalty = min(15,
notices*1)`, `score = max(0, 100 - totalPenalty)`, with grades by the
thresholds 95/90/80/70/60; on `{errors:3, warnings:2, notices:10}` it
returns penalties 30/6/10, total 46, score 54, grade F. -/
theorem scorer_formula_and_example :
    (∀ c : Counts,
      (calculateDetailedScore c).breakdown.errorPenalty = min 60 (c.errors * 10) ∧
      (calculateDetailedScore c).breakdown.warningPenalty = min 25 (c.warnings * 3) ∧
      (calculateDetailedScore c).breakdown.noticePenalty = min 15 (c.notices * 1) ∧
      (calculateDetailedScore c).breakdown.totalPenalty =
        min 60 (c.errors * 10) + min 25 (c.warnings * 3) + min 15 (c.notices * 1) ∧
      (calculateDetailedScore c).score =
        max 0 (100 -
          (min 60 (c.errors * 10) + min 25 (c.warnings * 3) + min 15 (c.notices * 1))) ∧
      (calculateDetailedScore c).grade =
        (if 95 ≤ (calculateDetailedScore c).score then "A+"
         else if 90 ≤ (calculateDetailedScore c).score then "A"
         else if 80 ≤ (calculateDetailedScore c).score then "B"
         else if 70 ≤ (calculateDetailedScore c).score then "C"
         else if 60 ≤ (calculateDetailedScore c).score then "D"
         else "F")) ∧
    (calculateDetailedScore ⟨3, 2, 10⟩).breakdown = ⟨30, 6, 10, 46⟩ ∧
    (calculateDetailedScore ⟨3, 2, 10⟩).score = 54 ∧
    (calculateDetailedScore ⟨3, 2, 10⟩).grade = "F" :=
  ⟨fun _ => ⟨rfl, rfl, rfl, rfl, rfl, rfl⟩, by decide, by decide, by decide⟩

/-- C7: for all counts the score lies in [0, 100] and each penalty is
non-negative and capped at its maximum. -/
theorem scorer_bounds (c : Counts) :
    (calculateDetailedScore c).score ≤ 100 ∧
    0 ≤ (calculateDetailedScore c).score ∧
    (calculateDetailedScore c).breakdown.errorPenalty ≤ 60 ∧
    0 ≤ (calculateDetailedScore c).breakdown.errorPenalty ∧
    (calculateDetailedScore c).breakdown.warningPenalty ≤ 25 ∧
    0 ≤ (calculateDetailedScore c).breakdown.warningPenalty ∧
    (calculateDetailedScore c).breakdown.noticePenalty ≤ 15 ∧
    0 ≤ (calculateDetailedScore c).breakdown.noticePenalty := by
  refine ⟨?_, Nat.zero_le _, ?_, Nat.zero_le _, ?_, Nat.zero_le _, ?_, Nat.zero_le _⟩
  · exact max_le (Nat.zero_le _) (Nat.sub_le _ _)
  · exact Nat.min_le_left _ _
  · exact Nat.min_le_left _ _
  · exact Nat.min_le_left _ _

/-- C9: the score is monotonically non-increasing, and every penalty
monotonically non-decreasing, in each of the three counts. -/
theorem scorer_monotone (e e' w w' n n' : Nat)
    (he : e ≤ e') (hw : w ≤ w') (hn : n ≤ n') :
    (calculateDetailedScore ⟨e', w', n'⟩).score ≤ (calculateDetailedScore ⟨e, w, n⟩).score ∧
    (calculateDetailedScore ⟨e, w, n⟩).breakdown.errorPenalty ≤
      (calculateDetailedScore ⟨e', w', n'⟩).breakdown.errorPenalty ∧
    (calculateDetailedScore ⟨e, w, n⟩).breakdown.warningPenalty ≤
      (calculateDetailedScore ⟨e', w', n'⟩).breakdown.warningPenalty ∧
    (calculateDetailedScore ⟨e, w, n⟩).breakdown.noticePenalty ≤
      (calculateDetailedScore ⟨e', w', n'⟩).breakdown.noticePenalty ∧
    (calculateDetailedScore ⟨e, w, n⟩).breakdown.totalPenalty ≤
      (calculateDetailedScore ⟨e', w', n'⟩).breakdown.totalPenalty := by
  simp only [calculateDetailedScore]
  omega

/-- Witness for `scorer_monotone` at (1,0,1) ≤ (2,3,4). -/
theorem scorer_monotone_witness :
    (calculateDetailedScore ⟨2, 3, 4⟩).score ≤ (calculateDetailedScore ⟨1, 0, 1⟩).score ∧
    (calculateDetailedScore ⟨1, 0, 1⟩).breakdown.errorPenalty ≤
      (calculateDetailedScore ⟨2, 3, 4⟩).breakdown.errorPenalty ∧
    (calculateDetailedScore ⟨1, 0, 1⟩).breakdown.warningPenalty ≤
      (calculateDetailedScore ⟨2, 3, 4⟩).breakdown.warningPenalty ∧
    (calculateDetailedScore ⟨1, 0, 1⟩).breakdown.noticePenalty ≤
      (calculateDetailedScore ⟨2, 3, 4⟩).breakdown.noticePenalty ∧
    (calculateDetailedScore ⟨1, 0, 1⟩).breakdown.totalPenalty ≤
      (calculateDetailedScore ⟨2, 3, 4⟩).breakdown.totalPenalty :=
  scorer_monotone 1 2 0 3 1 4 (by decide) (by decide) (by decide)

/-- C8: normalization is deterministic — running it twice on the same
raw issue list yields identical output lists, order and content; the
embedding is a pure function of its input. -/
theorem normalize_deterministic (wcagDe : String → Option String) (issues : List RawIssue) :
    processAndCleanIssues wcagDe issues = processAndCleanIssues wcagDe issues := rfl

/-- C6: a missing url, or one the URL parser rejects or whose protocol
is not http/https, is answered with the structured 400 validation error
and performs zero external-engine calls. -/
theorem invalid_url_rejected (parseURL : String → Option URLParts) (url : Option String)
    (h : url = none ∨ ∀ u, url = some u → isValidUrl parseURL u = false) :
    a11yCheckStep parseURL url =
      HandlerStep.reject 400 "Bitte eine gültige URL mit http(s) angeben." ∧
    engineCalls (a11yCheckStep parseURL url) = 0 := by
  have hr : a11yCheckStep parseURL url =
      HandlerStep.reject 400 "Bitte eine gültige URL mit http(s) angeben." := by
    cases url with
    | none => rfl
    | some u =>
      rcases h with h | h
      · exact absurd h (by simp)
      · have hv := h u rfl
        simp only [a11yCheckStep]
        rw [if_pos (Or.inr (by simp [hv]))]
  exact ⟨hr, by rw [hr]; rfl⟩

/-- Witness for `invalid_url_rejected`: a parser that rejects the
string. -/
theorem invalid_url_rejected_witness :
    a11yCheckStep (fun _ => none) (some "keine-url") =
      HandlerStep.reject 400 "Bitte eine gültige URL mit http(s) angeben." ∧
    engineCalls (a11yCheckStep (fun _ => none) (some "keine-url")) = 0 :=
  invalid_url_rejected (fun _ => none) (some "keine-url")
    (Or.inr (fun u hu => by cases hu; rfl))

/-- C1 counterexample: on a code with a curated entry, an external
dictionary entry wins over the curated description, contradicting the
claimed curated-first order. -/
theorem description_order_counterexample :
    (translationFor dictC1 "WCAG2AA.Principle2.Guideline2_4.2_4_2.H25.2").description =
      "Externe Beschreibung aus dem Wörterbuch" ∧
    claimedDescription dictC1 "WCAG2AA.Principle2.Guideline2_4.2_4_2.H25.2" =
      "Der Seitentitel ist leer, zu allgemein oder nicht aussagekräftig." ∧
    (translationFor dictC1 "WCAG2AA.Principle2.Guideline2_4.2_4_2.H25.2").description ≠
      claimedDescription dictC1 "WCAG2AA.Principle2.Guideline2_4.2_4_2.H25.2" :=
  ⟨rfl, rfl, by decide⟩

/-- C1 amended: for every rule code the description is resolved in the
order external dictionary entry (when present and non-empty), then
curated description, then the unknown-issue placeholder. -/
theorem description_order_amended (wcagDe : String → Option String) (key : String) :
    (translationFor wcagDe key).description = amendedDescription wcagDe key := by
  show germanTextOf wcagDe key = _
  unfold germanTextOf amendedDescription truthy
  cases hw : wcagDe key with
  | none =>
    cases ht : translations key with
    | none => simp
    | some t => by_cases hd : t.description = "" <;> simp [hd]
  | some s =>
    by_cases hs : s = ""
    · cases ht : translations key with
      | none => simp [hs]
      | some t => by_cases hd : t.description = "" <;> simp [hs, hd]
    · simp [hs]

/-- Membership follows from a successful table lookup. -/
theorem tableLookup_mem (tbl : List (String × CuratedEntry)) (key : String) (t : CuratedEntry) :
    tableLookup tbl key = some t → (key, t) ∈ tbl := by
  induction tbl with
  | nil => intro h; cases h
  | cons p rest ih =>
    intro h
    unfold tableLookup at h
    by_cases hk : p.1 = key
    · rw [if_pos hk] at h
      cases h
      subst hk
      exact List.mem_cons_self _ _
    · rw [if_neg hk] at h
      exact List.mem_cons_of_mem _ (ih h)

/-- Every curated entry has a non-empty title. -/
theorem curated_title_nonempty (key : String) (t : CuratedEntry)
    (h : translations key = some t) : t.title ≠ "" := by
  have hm := tableLookup_mem translationsTable key t h
  have hall : ∀ p ∈ translationsTable, p.2.title ≠ "" := by decide
  exact hall (key, t) hm

/-- C10: a code with no curated entry and no dictionary entry yields
exactly the placeholder translation; and the stripped-code title
fallback is reached only when the external dictionary supplies a
non-empty description of length at most 10 (the placeholder itself is
longer than 10 characters). -/
theorem unknown_code_placeholder (wcagDe : String → Option String) (key : String) :
    (translations key = none → wcagDe key = none →
      translationFor wcagDe key =
        { title := "Unbekanntes Problem", description := "Unbekanntes Problem",
          fix := "Siehe WCAG-Richtlinien" }) ∧
    ((∀ t, translations key = some t → t.title = "") →
      ¬ (germanTextOf wcagDe key ≠ "" ∧ 10 < (germanTextOf wcagDe key).length) →
      ∃ s, wcagDe key = some s ∧ s ≠ "" ∧ s.length ≤ 10) := by
  constructor
  · intro ht hw
    unfold translationFor titleOf germanTextOf
    rw [ht, hw]
    rfl
  · intro hTitle hLen
    cases ht : translations key with
    | some t => exact absurd (hTitle t ht) (fun he => curated_title_nonempty key t ht he)
    | none =>
      cases hw : wcagDe key with
      | none =>
        exfalso
        apply hLen
        have hg : germanTextOf wcagDe key = "Unbekanntes Problem" := by
          unfold germanTextOf; rw [hw, ht]
        rw [hg]
        exact ⟨by decide, by decide⟩
      | some s =>
        by_cases hs : s = ""
        · exfalso
          apply hLen
          have hg : germanTextOf wcagDe key = "Unbekanntes Problem" := by
            unfold germanTextOf; rw [hw, ht]; simp [hs]
          rw [hg]
          exact ⟨by decide, by decide⟩
        · refine ⟨s, rfl, hs, ?_⟩
          have hg : germanTextOf wcagDe key = s := by
            unfold germanTextOf; rw [hw]; simp [hs]
          rw [hg] at hLen
          by_contra hlen10
          exact hLen ⟨hs, by omega⟩

/-- Witness for `unknown_code_placeholder`: an unknown code with an
empty dictionary gives the placeholder record, and with a short
dictionary entry the stripped-title branch hypothesis yields the
required short entry. -/
theorem unknown_code_placeholder_witness :
    translationFor emptyDict "X.UNBEKANNT" =
      { title := "Unbekanntes Problem", description := "Unbekanntes Problem",
        fix := "Siehe WCAG-Richtlinien" } ∧
    ∃ s, (fun _ => some "kurz" : String → Option String) "X.UNBEKANNT" = some s ∧
      s ≠ "" ∧ s.length ≤ 10 :=
  ⟨(unknown_code_placeholder emptyDict "X.UNBEKANNT").1 (by decide) rfl,
   (unknown_code_placeholder (fun _ => some "kurz") "X.UNBEKANNT").2
     (fun t ht => by rw [show translations "X.UNBEKANNT" = none from by decide] at ht; cases ht)
     (by decide)⟩

/-- C5: the summary's quick-win list has at most 3 entries, and each
entry is the title-or-code of an input issue that is critical-priority
and whose code contains one of the quick-win fragments. -/
theorem quickwins_critical_subset (issues : List NormalizedIssue) :
    (generateSummary issues).quickWins.length ≤ 3 ∧
    ∀ t ∈ (generateSummary issues).quickWins, ∃ i, i ∈ issues ∧
      i.isPriority = "critical" ∧
      (quickWinCodes.any (fun code => strIncludes i.code code)) = true ∧
      t = titleOrCode i := by
  constructor
  · exact List.length_take_le _ _
  · intro t ht
    have ht' := List.take_subset _ _ ht
    rcases List.mem_map.mp ht' with ⟨i, hi, hf⟩
    rcases List.mem_filter.mp hi with ⟨hi2, hq⟩
    rcases List.mem_filter.mp hi2 with ⟨hmem, hcrit⟩
    exact ⟨i, hmem, of_decide_eq_true hcrit, hq, hf.symm⟩

/-- Witness for `quickwins_critical_subset` on a one-issue list. -/
theorem quickwins_critical_subset_witness :
    (generateSummary [qwIssue]).quickWins.length ≤ 3 ∧
    ∃ i, i ∈ [qwIssue] ∧ i.isPriority = "critical" ∧
      (quickWinCodes.any (fun code => strIncludes i.code code)) = true ∧
      "Doppelte IDs" = titleOrCode i :=
  ⟨(quickwins_critical_subset [qwIssue]).1,
   (quickwins_critical_subset [qwIssue]).2 "Doppelte IDs" (by decide)⟩

/-- C3: the normalizer's output is sorted by priority rank ascending,
and by count descending within equal priority; on an input realizing
priorities low(5), critical(1), warning(10) the output order is
critical(1), warning(10), low(5). -/
theorem output_sorted :
    (∀ (wcagDe : String → Option String) (issues : List RawIssue),
      List.Sorted issueRel (processAndCleanIssues wcagDe issues)) ∧
    (processAndCleanIssues emptyDict exampleIssuesC3).map
        (fun g => (g.code, g.count, g.isPriority)) =
      [("A.F77", 1, "critical"), ("B.G149", 10, "warning"), ("X.LOW", 5, "low")] :=
  ⟨fun _ _ => List.sorted_insertionSort issueRel _, by decide⟩

/-- `updateGroup` does not change a group's code. -/
theorem updateGroup_code (g : Group) (i : RawIssue) : (updateGroup g i).code = g.code := rfl

/-- Inserting an issue appends its key to the code list when absent
and leaves the code list unchanged otherwise. -/
theorem insertIssue_codes (w : String → Option String) (i : RawIssue) :
    ∀ gs : List Group,
      (insertIssue w i gs).map Group.code =
        if jsKey i.code ∈ gs.map Group.code then gs.map Group.code
        else gs.map Group.code ++ [jsKey i.code] := by
  intro gs
  induction gs with
  | nil => simp [insertIssue, updateGroup, freshGroup]
  | cons g rest ih =>
    unfold insertIssue
    by_cases hc : g.code = jsKey i.code
    · rw [if_pos hc]
      simp [updateGroup, hc]
    · rw [if_neg hc]
      simp only [List.map_cons, ih]
      by_cases hmem : jsKey i.code ∈ rest.map Group.code
      · simp [hmem, updateGroup]
      · have hne : jsKey i.code ≠ Group.code g := fun h => hc h.symm
        simp [hmem, hne]

/-- Inserting an issue adds one to the recorded count of its key and
leaves every other key's count unchanged. -/
theorem insertIssue_countIn (w : String → Option String) (i : RawIssue) :
    ∀ (gs : List Group) (key : String),
      countIn (insertIssue w i gs) key =
        countIn gs key + (if jsKey i.code = key then 1 else 0) := by
  intro gs
  induction gs with
  | nil =>
    intro key
    by_cases hk : jsKey i.code = key <;>
      simp [insertIssue, countIn, updateGroup, freshGroup, hk]
  | cons g rest ih =>
    intro key
    unfold insertIssue
    by_cases hc : g.code = jsKey i.code
    · rw [if_pos hc]
      by_cases hk : g.code = key
      · have : jsKey i.code = key := hc ▸ hk
        simp [countIn, updateGroup, hk, this]
      · have : ¬ jsKey i.code = key := fun h => hk (hc ▸ h)
        simp [countIn, updateGroup, hk, this]
    · rw [if_neg hc]
      by_cases hk : g.code = key
      · have : ¬ jsKey i.code = key := fun h => hc (hk ▸ h.symm ▸ rfl)
        simp [countIn, hk, this]
      · simp [countIn, hk, ih]

/-- Over the whole grouping fold, the recorded count of a key grows by
the number of raw issues bearing that key. -/
theorem foldl_countIn (w : String → Option String) :
    ∀ (issues : List RawIssue) (gs : List Group) (key : String),
      countIn (issues.foldl (fun a i => insertIssue w i a) gs) key =
        countIn gs key + (issues.filter (fun i => jsKey i.code == key)).length := by
  intro issues
  induction issues with
  | nil => intro gs key; simp
  | cons i is ih =>
    intro gs key
    simp only [List.foldl_cons, ih, insertIssue_countIn, List.filter_cons]
    by_cases hk : jsKey i.code = key
    · simp only [hk, if_pos rfl, beq_self_eq_true, if_true, List.length_cons]
      omega
    · simp [hk]

/-- The grouping fold keeps the code list duplicate-free. -/
theorem groupFold_codes_nodup (w : String → Option String) :
    ∀ (issues : List RawIssue) (gs : List Group),
      (gs.map Group.code).Nodup →
      ((issues.foldl (fun a i => insertIssue w i a) gs).map Group.code).Nodup := by
  intro issues
  induction issues with
  | nil => intro gs h; simpa using h
  | cons i is ih =>
    intro gs h
    simp only [List.foldl_cons]
    apply ih
    rw [insertIssue_codes]
    by_cases hmem : jsKey i.code ∈ gs.map Group.code
    · simpa [hmem] using h
    · rw [if_neg hmem]
      simp [List.nodup_append, h, hmem]

/-- In a group list with duplicate-free codes, the recorded count of a
member's code is that member's count. -/
theorem countIn_of_mem :
    ∀ (gs : List Group), (gs.map Group.code).Nodup →
      ∀ g ∈ gs, countIn gs g.code = g.count := by
  intro gs
  induction gs with
  | nil => intro _ g hm; cases hm
  | cons a rest ih =>
    intro hnd g hm
    rw [List.map_cons, List.nodup_cons] at hnd
    rcases List.mem_cons.mp hm with rfl | hm'
    · simp [countIn]
    · have hne : a.code ≠ g.code := by
        intro he
        exact hnd.1 (he ▸ List.mem_map_of_mem Group.code hm')
      simp only [countIn, if_neg hne]
      exact ih hnd.2 g hm'

/-- `setAdd` preserves duplicate-freedom. -/
theorem setAdd_nodup (l : List String) (x : String) (h : l.Nodup) : (setAdd l x).Nodup := by
  unfold setAdd
  by_cases hx : x ∈ l
  · simpa [hx] using h
  · simp [hx, List.nodup_append, h]

/-- Group updates keep the message and selector sets duplicate-free. -/
theorem updateGroup_nodup (g : Group) (i : RawIssue)
    (hm : g.messages.Nodup) (hs : g.selectors.Nodup) :
    (updateGroup g i).messages.Nodup ∧ (updateGroup g i).selectors.Nodup := by
  unfold updateGroup
  constructor
  · by_cases h1 : i.message ≠ "" <;> simp [h1, setAdd_nodup, hm]
  · by_cases h2 : i.selector ≠ "" <;> simp [h2, setAdd_nodup, hs]

/-- Insertion keeps every group's message and selector sets
duplicate-free. -/
theorem insertIssue_fields_nodup (w : String → Option String) (i : RawIssue) :
    ∀ gs, (∀ g ∈ gs, g.messages.Nodup ∧ g.selectors.Nodup) →
      ∀ g ∈ insertIssue w i gs, g.messages.Nodup ∧ g.selectors.Nodup := by
  intro gs
  induction gs with
  | nil =>
    intro _ g hg
    simp only [insertIssue] at hg
    rcases List.mem_singleton.mp hg with rfl
    exact updateGroup_nodup _ _ (by simp [freshGroup]) (by simp [freshGroup])
  | cons a rest ih =>
    intro h g hg
    unfold insertIssue at hg
    by_cases hc : a.code = jsKey i.code
    · rw [if_pos hc] at hg
      rcases List.mem_cons.mp hg with rfl | hg'
      · have ha := h a (List.mem_cons_self _ _)
        exact updateGroup_nodup _ _ ha.1 ha.2
      · exact h g (List.mem_cons_of_mem _ hg')
    · rw [if_neg hc] at hg
      rcases List.mem_cons.mp hg with rfl | hg'
      · exact h g (List.mem_cons_self _ _)
      · exact ih (fun x hx => h x (List.mem_cons_of_mem _ hx)) g hg'

/-- The grouping fold keeps every group's message and selector sets
duplicate-free. -/
theorem groupFold_fields_nodup (w : String → Option String) :
    ∀ (issues : List RawIssue) (gs : List Group),
      (∀ g ∈ gs, g.messages.Nodup ∧ g.selectors.Nodup) →
      ∀ g ∈ issues.foldl (fun a i => insertIssue w i a) gs,
        g.messages.Nodup ∧ g.selectors.Nodup := by
  intro issues
  induction issues with
  | nil => intro gs h; simpa using h
  | cons i is ih =>
    intro gs h
    simp only [List.foldl_cons]
    exact ih _ (insertIssue_fields_nodup w i gs h)

/-- C4: every normalized issue's count equals the number of raw issues
bearing its code (duplicates not collapsed), its message and selector
sets are duplicate-free, and the two-duplicate example yields one
record with count 2, messages `["m1"]`, samples `["s1","s2"]`. -/
theorem count_reflects_raw :
    (∀ (wcagDe : String → Option String) (issues : List RawIssue)
       (g : NormalizedIssue), g ∈ processAndCleanIssues wcagDe issues →
      g.count = (issues.filter (fun i => jsKey i.code == g.code)).length ∧
      g.messages.Nodup ∧ g.selectors.Nodup) ∧
    processAndCleanIssues emptyDict exampleIssuesC4 = [normXIssue] := by
  constructor
  · intro w issues g hg
    unfold processAndCleanIssues at hg
    have hg' : g ∈ (groupIssues w issues).map finalizeGroup :=
      (List.perm_insertionSort issueRel _).mem_iff.mp hg
    rcases List.mem_map.mp hg' with ⟨g0, hg0, rfl⟩
    have hnd := groupFold_codes_nodup w issues [] (by simp)
    have hcount := countIn_of_mem _ hnd g0 hg0
    have htotal := foldl_countIn w issues [] g0.code
    have hfields := groupFold_fields_nodup w issues [] (by simp) g0 hg0
    refine ⟨?_, hfields.1, hfields.2⟩
    show g0.count = _
    unfold groupIssues at hcount
    rw [hcount] at htotal
    simpa [countIn] using htotal
  · decide

/-- Witness for `count_reflects_raw` on the duplicate-code example. -/
theorem count_reflects_raw_witness :
    normXIssue.count =
      (exampleIssuesC4.filter (fun i => jsKey i.code == normXIssue.code)).length ∧
    normXIssue.messages.Nodup ∧ normXIssue.selectors.Nodup :=
  count_reflects_raw.1 emptyDict exampleIssuesC4 normXIssue (by decide)

end A11y
